import Mathlib

/-!
Shallow embedding of the polling/recovery core of the pinch usage monitor:
the usage-API response parser and failure mapping (usage_api.py), the
poll/retry logic of the background monitor (usage_monitor.py), the
token-health classifier (auth.py), and the thread-safe snapshot holder
(shared_state.py).  Python floats are modelled as rationals, Python ints
as integers, fallible lookups as Option.  Network fetches and credential
reads are modelled as oracles (functions from a call index to the outcome
of that call), so that one poll consumes successive outcomes in order.
-/

namespace Pinch

/-- List-level check that the first list is an initial segment of the second. -/
def startsWithList : List Char → List Char → Bool
  | [], _ => true
  | _ :: _, [] => false
  | a :: as, b :: bs => a == b && startsWithList as bs

/-- Python substring containment (the binary operator in): the first list
occurs contiguously inside the second. -/
def substrIn (needle : List Char) : List Char → Bool
  | [] => startsWithList needle []
  | b :: rest => startsWithList needle (b :: rest) || substrIn needle rest

/-- UsageBucket dataclass from shared_state.py: one usage metric bucket. -/
structure UsageBucket where
  utilization : ℚ := 0
  resets_at : Option String := none
  deriving DecidableEq

/-- ExtraUsage dataclass from shared_state.py: extra usage / overuse credits. -/
structure ExtraUsage where
  is_enabled : Bool := false
  monthly_limit : ℚ := 0
  used_credits : ℚ := 0
  utilization : ℚ := 0
  deriving DecidableEq

/-- UsageData dataclass from shared_state.py: a complete usage snapshot. -/
structure UsageData where
  five_hour : UsageBucket := {}
  seven_day : UsageBucket := {}
  seven_day_sonnet : UsageBucket := {}
  extra_usage : ExtraUsage := {}
  error : Option String := none
  last_updated : Option String := none
  deriving DecidableEq

/-- One bucket object of the JSON response body: each field may be absent. -/
structure BucketJson where
  utilization : Option ℚ := none
  resets_at : Option String := none
  deriving DecidableEq

/-- The extra_usage object of the JSON response body. -/
structure ExtraJson where
  is_enabled : Option Bool := none
  monthly_limit : Option ℚ := none
  used_credits : Option ℚ := none
  utilization : Option ℚ := none
  deriving DecidableEq

/-- A parsed JSON response body of the usage endpoint: the four top-level
keys read by the parser, each possibly absent (raw.get). -/
structure ResponseJson where
  five_hour : Option BucketJson := none
  seven_day : Option BucketJson := none
  seven_day_sonnet : Option BucketJson := none
  extra_usage : Option ExtraJson := none
  deriving DecidableEq

/-- The local helper bucket of usage_api._parse_response: raw.get(key) or
followed by defaulted field reads. -/
def parseBucket (o : Option BucketJson) : UsageBucket :=
  let d := o.getD {}
  { utilization := d.utilization.getD 0, resets_at := d.resets_at }

/-- usage_api._parse_response: parse the raw JSON response into UsageData.
The now argument stands for datetime.now(timezone.utc).isoformat(). -/
def parse_response (raw : ResponseJson) (now : String) : UsageData :=
  let extra_raw := raw.extra_usage.getD {}
  { five_hour := parseBucket raw.five_hour
    seven_day := parseBucket raw.seven_day
    seven_day_sonnet := parseBucket raw.seven_day_sonnet
    extra_usage :=
      { is_enabled := extra_raw.is_enabled.getD false
        monthly_limit := extra_raw.monthly_limit.getD 0 / 100
        used_credits := extra_raw.used_credits.getD 0 / 100
        utilization := extra_raw.utilization.getD 0 }
    error := none
    last_updated := some now }

/-- Transport outcome of one HTTP call in usage_api.fetch_usage: an
HTTPError with a status code, a URLError with a reason string, any other
exception, or a successfully decoded JSON body. -/
inductive FetchOutcome where
  | httpError (code : ℕ)
  | urlError (reason : String)
  | otherException
  | success (raw : ResponseJson)
  deriving DecidableEq

/-- usage_api.fetch_usage: map the transport outcome of the request to a
UsageData snapshot.  Access-token content never influences the result, so
the token argument is dropped and the outcome is the oracle input. -/
def fetch_usage (outcome : FetchOutcome) (now : String) : UsageData :=
  match outcome with
  | .httpError code => { error := some ("HTTP " ++ toString code) }
  | .urlError reason =>
      if substrIn ("certificate".toList) (reason.toList.map Char.toLower) then
        { error := some ("SSL certificate error") }
      else
        { error := some ("Connection failed") }
  | .otherException => { error := some ("Connection failed") }
  | .success raw => parse_response raw now

/-- The test data.error and 401 in data.error of usage_monitor.poll_once. -/
def is401 (d : UsageData) : Bool :=
  match d.error with
  | some e => substrIn ("401".toList) e.toList
  | none => false

/-- usage_monitor._AUTH_RETRY_DELAY: seconds waited before a 401 retry. -/
def AUTH_RETRY_DELAY : ℕ := 5

/-- usage_monitor._AUTH_MAX_RETRIES: maximum retries on 401 per cycle. -/
def AUTH_MAX_RETRIES : ℕ := 2

/-- config.POLL_INTERVAL_SECONDS. -/
def POLL_INTERVAL_SECONDS : ℤ := 30

/-- The missing-token error snapshot built in usage_monitor.poll_once. -/
def noTokenError : UsageData :=
  { error := some ("No OAuth token — is Claude Code installed?") }

/-- The distinguished snapshot poll_once substitutes when 401 persists
after exhausting retries. -/
def reconnectError : UsageData :=
  { error := some ("Token expired — open Claude Code to refresh, then click Reconnect") }

/-- Running effects of the 401 retry loop: current snapshot, number of
fetch_usage calls so far, number of read_access_token calls so far, and
number of retry delays slept so far. -/
structure RetryState where
  data : UsageData
  fetchCalls : ℕ
  tokenReads : ℕ
  sleeps : ℕ
  deriving DecidableEq

/-- The for attempt in range(1, MAX+1) loop of usage_monitor.poll_once.
Each attempt sleeps the retry delay and re-reads the token (consuming the
next token-oracle entry); a falsy token continues, otherwise the next
fetch-oracle entry is consumed, and the loop breaks as soon as the result
is not a 401 error. -/
def authRetry (tokens : ℕ → Option String) (fetches : ℕ → FetchOutcome)
    (now : String) : ℕ → RetryState → RetryState
  | 0, st => st
  | n + 1, st =>
    match tokens st.tokenReads with
    | none =>
        authRetry tokens fetches now n
          { st with tokenReads := st.tokenReads + 1, sleeps := st.sleeps + 1 }
    | some _ =>
        let d2 := fetch_usage (fetches st.fetchCalls) now
        let st2 : RetryState :=
          { data := d2, fetchCalls := st.fetchCalls + 1,
            tokenReads := st.tokenReads + 1, sleeps := st.sleeps + 1 }
        if is401 d2 then authRetry tokens fetches now n st2 else st2

/-- Observable result of one poll_once call: the returned snapshot, the
snapshots published to shared state, and the counts of fetch calls,
token reads and retry delays performed. -/
structure PollResult where
  returned : UsageData
  published : List UsageData
  fetchCalls : ℕ
  tokenReads : ℕ
  retrySleeps : ℕ
  deriving DecidableEq

/-- usage_monitor.UsageMonitor.poll_once: a single poll with automatic 401
retry.  The health argument is the status string of check_token_health
(its expired and expiring branches only log, so only the missing branch
alters control flow); tokens is the read_access_token oracle (some values
of read_access_token are never empty, so falsiness coincides with none);
fetches is the transport-outcome oracle consumed by successive
fetch_usage calls. -/
def poll_once (health : String) (tokens : ℕ → Option String)
    (fetches : ℕ → FetchOutcome) (now : String) : PollResult :=
  if health = "missing" then
    { returned := noTokenError, published := [noTokenError],
      fetchCalls := 0, tokenReads := 0, retrySleeps := 0 }
  else
    match tokens 0 with
    | none =>
        { returned := noTokenError, published := [noTokenError],
          fetchCalls := 0, tokenReads := 1, retrySleeps := 0 }
    | some _ =>
        let d := fetch_usage (fetches 0) now
        if is401 d then
          let r := authRetry tokens fetches now AUTH_MAX_RETRIES
            { data := d, fetchCalls := 1, tokenReads := 1, sleeps := 0 }
          let final := if is401 r.data then reconnectError else r.data
          { returned := final, published := [final], fetchCalls := r.fetchCalls,
            tokenReads := r.tokenReads, retrySleeps := r.sleeps }
        else
          { returned := d, published := [d], fetchCalls := 1,
            tokenReads := 1, retrySleeps := 0 }

/-- The sleep-duration computation at the end of usage_monitor._run:
exponential backoff capped at 300 seconds once more than 3 consecutive
errors have occurred. -/
def sleepTime (interval : ℤ) (consecutiveErrors : ℕ) : ℤ :=
  if 3 < consecutiveErrors then min (interval * 2 ^ (consecutiveErrors - 3)) 300
  else interval

/-- Mutable fields of UsageMonitor relevant to scheduling. -/
structure MonitorState where
  interval : ℤ
  consecutiveErrors : ℕ
  deriving DecidableEq

/-- usage_monitor.UsageMonitor.update_interval: assigns the interval field. -/
def update_interval (st : MonitorState) (i : ℤ) : MonitorState :=
  { st with interval := i }

/-- One iteration of the usage_monitor._run loop body after poll_once has
returned a snapshot whose error flag is pollHadError: update the
consecutive-error counter, re-read the interval from the settings store
(settings.load().get with default POLL_INTERVAL_SECONDS), compute the
sleep, and return the new state together with the sleep duration. -/
def runCycle (st : MonitorState) (pollHadError : Bool)
    (settingsPollInterval : Option ℤ) : MonitorState × ℤ :=
  let c := if pollHadError then st.consecutiveErrors + 1 else 0
  let i := settingsPollInterval.getD POLL_INTERVAL_SECONDS
  ({ interval := i, consecutiveErrors := c }, sleepTime i c)

/-- auth._EXPIRY_BUFFER_MS: five minutes in milliseconds. -/
def EXPIRY_BUFFER_MS : ℤ := 5 * 60 * 1000

/-- The expiresAt field of the credential file as auth.check_token_health
sees it: absent, or present with a Python truthiness and the result of
int() applied to it (none when int() raises).  A JSON number 0 is the
present falsy parseable value (truthy := false, parsed := some 0). -/
inductive ExpiryField where
  | absent
  | present (truthy : Bool) (parsed : Option ℤ)
  deriving DecidableEq

/-- The credential file as auth.check_token_health reads it: missing on
FileNotFoundError, corrupt on a JSON decode failure, otherwise the
accessToken field and the expiresAt field. -/
inductive CredFile where
  | fileMissing
  | corrupt
  | parsed (accessToken : Option String) (expiresAt : ExpiryField)
  deriving DecidableEq

/-- Python truthiness of an optional string (None and the empty string
are falsy). -/
def truthyStr : Option String → Bool
  | none => false
  | some s => !s.isEmpty

/-- auth.check_token_health: classify the credential state against the
current time in milliseconds, returning a (status, message) pair. -/
def check_token_health (file : CredFile) (now_ms : ℤ) : String × String :=
  match file with
  | .fileMissing => ("missing", "Credentials file not found")
  | .corrupt => ("missing", "Credentials file is corrupt")
  | .parsed tok exp =>
    if truthyStr tok then
      match exp with
      | .absent => ("ok", "Token present (no expiry info)")
      | .present truthy parsedVal =>
        if truthy then
          match parsedVal with
          | none => ("ok", "Token present (unparseable expiry)")
          | some exp_ms =>
            if now_ms > exp_ms then
              ("expired", "Token expired — open Claude Code to refresh")
            else if now_ms > exp_ms - EXPIRY_BUFFER_MS then
              ("expiring", "Token expires in " ++
                toString (max 0 ((exp_ms - now_ms).fdiv 60000)) ++ "m")
            else
              ("ok", "Token valid (" ++
                toString ((exp_ms - now_ms).fdiv 60000) ++ "m remaining)")
        else ("ok", "Token present (no expiry info)")
    else ("missing", "No accessToken in credentials")

/-- A subscriber callback of shared_state.SharedState: invoking it either
returns normally or raises an exception, modelled as Except with the
exception message on the error side. -/
def Subscriber := UsageData → Except String Unit

/-- The fields of shared_state.SharedState: the held snapshot and the
registered callbacks. -/
structure SharedState where
  data : UsageData
  callbacks : List Subscriber

/-- The for cb in self._callbacks loop of SharedState.update: each
callback is invoked inside its own try/except, so a raising callback
contributes its caught exception to the record of invocations and the
loop continues with the remaining callbacks. -/
def notifyAll : List Subscriber → UsageData → List (Except String Unit)
  | [], _ => []
  | cb :: rest, d => cb d :: notifyAll rest d

/-- shared_state.SharedState.update: store the new snapshot, then invoke
every callback; returns the new state and the per-callback outcomes
(each exception having been caught, never propagated). -/
def SharedState.update (st : SharedState) (d : UsageData) :
    SharedState × List (Except String Unit) :=
  ({ st with data := d }, notifyAll st.callbacks d)

/-- shared_state.SharedState.get: return the held snapshot. -/
def SharedState.get (st : SharedState) : UsageData := st.data

/-- Snapshot payload fields all hold their dataclass defaults. -/
def defaultPayload (d : UsageData) : Prop :=
  d.five_hour = {} ∧ d.seven_day = {} ∧ d.seven_day_sonnet = {} ∧ d.extra_usage = {}

/-- The server-supplied utilization of one bucket key after defaulting. -/
def bucketUtil (o : Option BucketJson) : ℚ := ((o.getD {}).utilization).getD 0

/-- An empty JSON response body, used as a concrete test input. -/
def emptyResp : ResponseJson := {}

/-- A response body whose five_hour utilization exceeds 100. -/
def overResp : ResponseJson := { five_hour := some { utilization := some 150 } }

/-- A response body carrying minor-unit monetary fields. -/
def centsResp : ResponseJson :=
  { extra_usage := some { monthly_limit := some 1139, used_credits := some 250 } }

/-- A token oracle that always yields a token. -/
def wTokens : ℕ → Option String := fun _ => some ("tok")

/-- Fetch oracle: 401, 401, then success. -/
def wFetchUUS : ℕ → FetchOutcome :=
  fun i => if i = 2 then FetchOutcome.success emptyResp else FetchOutcome.httpError 401

/-- Fetch oracle: 401 on every call. -/
def wFetchUUU : ℕ → FetchOutcome := fun _ => FetchOutcome.httpError 401

/-- A subscriber that always raises. -/
def failingCb : Subscriber := fun _ => Except.error ("boom")

/-- A subscriber that always succeeds. -/
def okCb : Subscriber := fun _ => Except.ok ()

/-- No string of the form HTTP followed by a status equals the
distinguished reconnect-prompting message (they differ at the first
character). -/
lemma http_msg_ne (s : String) :
    ("HTTP " ++ s) ≠ "Token expired — open Claude Code to refresh, then click Reconnect" := by
  intro h
  have h1 : ("HTTP " ++ s).data = 'H' :: 'T' :: 'T' :: 'P' :: ' ' :: s.data := by
    obtain ⟨l⟩ := s
    rfl
  have hd : ('H' :: 'T' :: 'T' :: 'P' :: ' ' :: s.data).head? =
      ("Token expired — open Claude Code to refresh, then click Reconnect").data.head? := by
    rw [← h1, h]
  simp only [List.head?] at hd
  exact absurd hd (by decide)

/-- Every error snapshot built by fetch_usage carries only default payload
fields, and its last_updated is unset exactly when an error is set. -/
lemma fetch_usage_error_payload (o : FetchOutcome) (now : String)
    (h : (fetch_usage o now).error.isSome = true) : defaultPayload (fetch_usage o now) := by
  cases o with
  | httpError code => exact ⟨rfl, rfl, rfl, rfl⟩
  | urlError reason =>
      simp only [fetch_usage]
      split
      · exact ⟨rfl, rfl, rfl, rfl⟩
      · exact ⟨rfl, rfl, rfl, rfl⟩
  | otherException => exact ⟨rfl, rfl, rfl, rfl⟩
  | success raw => simp [fetch_usage, parse_response] at h

/-- fetch_usage sets last_updated exactly on the successful-parse path,
which is also the only path with no error. -/
lemma fetch_usage_last_updated (o : FetchOutcome) (now : String) :
    (fetch_usage o now).last_updated.isSome = true ↔ (fetch_usage o now).error = none := by
  cases o with
  | httpError code => simp [fetch_usage]
  | urlError reason =>
      simp only [fetch_usage]
      split
      · simp
      · simp
  | otherException => simp [fetch_usage]
  | success raw => simp [fetch_usage, parse_response]

/-- A fetch result without an error can only come from a successfully
decoded body, and is then exactly the parser output. -/
lemma fetch_usage_success_form (o : FetchOutcome) (now : String)
    (h : (fetch_usage o now).error = none) :
    ∃ raw, o = FetchOutcome.success raw ∧ fetch_usage o now = parse_response raw now := by
  cases o with
  | httpError code => simp [fetch_usage] at h
  | urlError reason =>
      simp only [fetch_usage] at h
      split at h
      · simp at h
      · simp at h
  | otherException => simp [fetch_usage] at h
  | success raw => exact ⟨raw, rfl, rfl⟩

/-- No error string fetch_usage can produce equals the distinguished
reconnect-prompting error of poll_once. -/
lemma fetch_usage_error_ne_reconnect (o : FetchOutcome) (now : String) :
    (fetch_usage o now).error ≠ reconnectError.error := by
  cases o with
  | httpError code =>
      simp only [fetch_usage, reconnectError, Option.some.injEq, ne_eq]
      exact http_msg_ne (toString code)
  | urlError reason =>
      simp only [fetch_usage]
      split
      · simp [reconnectError]
      · simp [reconnectError]
  | otherException => simp [fetch_usage, reconnectError]
  | success raw => simp [fetch_usage, parse_response, reconnectError]

/-- One retry attempt where the re-read token is absent: the attempt is
consumed (sleep and token read) and the loop continues unchanged. -/
lemma authRetry_step_none (tokens : ℕ → Option String) (fetches : ℕ → FetchOutcome)
    (now : String) (n : ℕ) (st : RetryState)
    (ht : tokens st.tokenReads = none) :
    authRetry tokens fetches now (n + 1) st =
      authRetry tokens fetches now n
        { st with tokenReads := st.tokenReads + 1, sleeps := st.sleeps + 1 } := by
  simp only [authRetry, ht]

/-- One retry attempt whose fresh fetch is again a 401: the loop records
the new snapshot and continues. -/
lemma authRetry_step_401 (tokens : ℕ → Option String) (fetches : ℕ → FetchOutcome)
    (now : String) (n : ℕ) (st : RetryState) (t : String)
    (ht : tokens st.tokenReads = some t)
    (h401 : is401 (fetch_usage (fetches st.fetchCalls) now) = true) :
    authRetry tokens fetches now (n + 1) st =
      authRetry tokens fetches now n
        { data := fetch_usage (fetches st.fetchCalls) now,
          fetchCalls := st.fetchCalls + 1,
          tokenReads := st.tokenReads + 1, sleeps := st.sleeps + 1 } := by
  simp only [authRetry, ht, h401, if_true]

/-- One retry attempt whose fresh fetch is not a 401: the loop breaks with
that snapshot. -/
lemma authRetry_step_done (tokens : ℕ → Option String) (fetches : ℕ → FetchOutcome)
    (now : String) (n : ℕ) (st : RetryState) (t : String)
    (ht : tokens st.tokenReads = some t)
    (h401 : is401 (fetch_usage (fetches st.fetchCalls) now) = false) :
    authRetry tokens fetches now (n + 1) st =
      { data := fetch_usage (fetches st.fetchCalls) now,
        fetchCalls := st.fetchCalls + 1,
        tokenReads := st.tokenReads + 1, sleeps := st.sleeps + 1 } := by
  simp only [authRetry, ht, h401]
  rfl

/-- The retry loop performs at most one fetch per remaining attempt. -/
lemma authRetry_fetchCalls_le (tokens : ℕ → Option String) (fetches : ℕ → FetchOutcome)
    (now : String) : ∀ (n : ℕ) (st : RetryState),
    (authRetry tokens fetches now n st).fetchCalls ≤ st.fetchCalls + n := by
  intro n
  induction n with
  | zero => intro st; simp [authRetry]
  | succ k ih =>
      intro st
      cases ht : tokens st.tokenReads with
      | none =>
          rw [authRetry_step_none tokens fetches now k st ht]
          refine le_trans (ih _) ?_
          show st.fetchCalls + k ≤ st.fetchCalls + (k + 1)
          omega
      | some t =>
          cases h401 : is401 (fetch_usage (fetches st.fetchCalls) now) with
          | true =>
              rw [authRetry_step_401 tokens fetches now k st t ht h401]
              refine le_trans (ih _) ?_
              show st.fetchCalls + 1 + k ≤ st.fetchCalls + (k + 1)
              omega
          | false =>
              rw [authRetry_step_done tokens fetches now k st t ht h401]
              show st.fetchCalls + 1 ≤ st.fetchCalls + (k + 1)
              omega

/-- The retry loop sleeps the fixed delay at most once per remaining
attempt. -/
lemma authRetry_sleeps_le (tokens : ℕ → Option String) (fetches : ℕ → FetchOutcome)
    (now : String) : ∀ (n : ℕ) (st : RetryState),
    (authRetry tokens fetches now n st).sleeps ≤ st.sleeps + n := by
  intro n
  induction n with
  | zero => intro st; simp [authRetry]
  | succ k ih =>
      intro st
      cases ht : tokens st.tokenReads with
      | none =>
          rw [authRetry_step_none tokens fetches now k st ht]
          refine le_trans (ih _) ?_
          show st.sleeps + 1 + k ≤ st.sleeps + (k + 1)
          omega
      | some t =>
          cases h401 : is401 (fetch_usage (fetches st.fetchCalls) now) with
          | true =>
              rw [authRetry_step_401 tokens fetches now k st t ht h401]
              refine le_trans (ih _) ?_
              show st.sleeps + 1 + k ≤ st.sleeps + (k + 1)
              omega
          | false =>
              rw [authRetry_step_done tokens fetches now k st t ht h401]
              show st.sleeps + 1 ≤ st.sleeps + (k + 1)
              omega

/-- The snapshot held after the retry loop is either the snapshot it
started from or the result of one of the oracle fetches. -/
lemma authRetry_data_cases (tokens : ℕ → Option String) (fetches : ℕ → FetchOutcome)
    (now : String) : ∀ (n : ℕ) (st : RetryState),
    (authRetry tokens fetches now n st).data = st.data ∨
    ∃ i, (authRetry tokens fetches now n st).data = fetch_usage (fetches i) now := by
  intro n
  induction n with
  | zero => intro st; exact Or.inl rfl
  | succ k ih =>
      intro st
      cases ht : tokens st.tokenReads with
      | none =>
          rw [authRetry_step_none tokens fetches now k st ht]
          exact ih _
      | some t =>
          cases h401 : is401 (fetch_usage (fetches st.fetchCalls) now) with
          | true =>
              rw [authRetry_step_401 tokens fetches now k st t ht h401]
              have h2 := ih ⟨fetch_usage (fetches st.fetchCalls) now,
                st.fetchCalls + 1, st.tokenReads + 1, st.sleeps + 1⟩
              rcases h2 with h | h
              · exact Or.inr ⟨st.fetchCalls, h⟩
              · exact Or.inr h
          | false =>
              rw [authRetry_step_done tokens fetches now k st t ht h401]
              exact Or.inr ⟨st.fetchCalls, rfl⟩

/-- Evaluation of poll_once when the health status is not missing, the
first token read succeeds and the first fetch is a 401: the retry loop
runs, and its final snapshot is replaced by the distinguished reconnect
error if it is still a 401. -/
lemma poll_once_401_path (health : String) (tokens : ℕ → Option String)
    (fetches : ℕ → FetchOutcome) (now : String) (t0 : String)
    (hm : ¬health = "missing") (ht0 : tokens 0 = some t0)
    (h401 : is401 (fetch_usage (fetches 0) now) = true) :
    poll_once health tokens fetches now =
      (let r := authRetry tokens fetches now AUTH_MAX_RETRIES
          { data := fetch_usage (fetches 0) now, fetchCalls := 1, tokenReads := 1, sleeps := 0 }
       let final := if is401 r.data then reconnectError else r.data
       { returned := final, published := [final], fetchCalls := r.fetchCalls,
         tokenReads := r.tokenReads, retrySleeps := r.sleeps }) := by
  simp only [poll_once, if_neg hm, ht0, h401, if_true]

/-- Evaluation of poll_once when the health status is not missing, the
first token read succeeds and the first fetch is not a 401: that fetch
result is published and returned unchanged. -/
lemma poll_once_direct_path (health : String) (tokens : ℕ → Option String)
    (fetches : ℕ → FetchOutcome) (now : String) (t0 : String)
    (hm : ¬health = "missing") (ht0 : tokens 0 = some t0)
    (h401 : is401 (fetch_usage (fetches 0) now) = false) :
    poll_once health tokens fetches now =
      { returned := fetch_usage (fetches 0) now, published := [fetch_usage (fetches 0) now],
        fetchCalls := 1, tokenReads := 1, retrySleeps := 0 } := by
  simp only [poll_once, if_neg hm, ht0, h401]
  rfl

/-- poll_once performs at most one initial fetch plus one fetch per
allowed retry, and sleeps the retry delay at most once per allowed
retry. -/
lemma poll_once_bounds (health : String) (tokens : ℕ → Option String)
    (fetches : ℕ → FetchOutcome) (now : String) :
    (poll_once health tokens fetches now).fetchCalls ≤ 1 + AUTH_MAX_RETRIES ∧
    (poll_once health tokens fetches now).retrySleeps ≤ AUTH_MAX_RETRIES := by
  by_cases hm : health = "missing"
  · simp [poll_once, hm]
  · cases ht0 : tokens 0 with
    | none =>
        simp only [poll_once, if_neg hm, ht0]
        exact ⟨by omega, by omega⟩
    | some t0 =>
        cases h401 : is401 (fetch_usage (fetches 0) now) with
        | true =>
            rw [poll_once_401_path health tokens fetches now t0 hm ht0 h401]
            constructor
            · have := authRetry_fetchCalls_le tokens fetches now AUTH_MAX_RETRIES
                ⟨fetch_usage (fetches 0) now, 1, 1, 0⟩
              exact this
            · have := authRetry_sleeps_le tokens fetches now AUTH_MAX_RETRIES
                ⟨fetch_usage (fetches 0) now, 1, 1, 0⟩
              simpa using this
        | false =>
            rw [poll_once_direct_path health tokens fetches now t0 hm ht0 h401]
            exact ⟨by simp [AUTH_MAX_RETRIES], by simp⟩

/-- Evaluation of poll_once on the 401 path when the retry loop still
ends in a 401: the published and returned snapshot is the distinguished
reconnect error. -/
lemma poll_once_401_exhausted (health : String) (tokens : ℕ → Option String)
    (fetches : ℕ → FetchOutcome) (now : String) (t0 : String)
    (hm : ¬health = "missing") (ht0 : tokens 0 = some t0)
    (h401 : is401 (fetch_usage (fetches 0) now) = true)
    (hfin : is401 (authRetry tokens fetches now AUTH_MAX_RETRIES
      { data := fetch_usage (fetches 0) now, fetchCalls := 1,
        tokenReads := 1, sleeps := 0 }).data = true) :
    poll_once health tokens fetches now =
      { returned := reconnectError, published := [reconnectError],
        fetchCalls := (authRetry tokens fetches now AUTH_MAX_RETRIES
          { data := fetch_usage (fetches 0) now, fetchCalls := 1,
            tokenReads := 1, sleeps := 0 }).fetchCalls,
        tokenReads := (authRetry tokens fetches now AUTH_MAX_RETRIES
          { data := fetch_usage (fetches 0) now, fetchCalls := 1,
            tokenReads := 1, sleeps := 0 }).tokenReads,
        retrySleeps := (authRetry tokens fetches now AUTH_MAX_RETRIES
          { data := fetch_usage (fetches 0) now, fetchCalls := 1,
            tokenReads := 1, sleeps := 0 }).sleeps } := by
  simp only [poll_once, if_neg hm, ht0, h401, hfin, if_true]

/-- Evaluation of poll_once on the 401 path when the retry loop ends in a
non-401 snapshot: that snapshot is published and returned. -/
lemma poll_once_401_recovered (health : String) (tokens : ℕ → Option String)
    (fetches : ℕ → FetchOutcome) (now : String) (t0 : String)
    (hm : ¬health = "missing") (ht0 : tokens 0 = some t0)
    (h401 : is401 (fetch_usage (fetches 0) now) = true)
    (hfin : is401 (authRetry tokens fetches now AUTH_MAX_RETRIES
      { data := fetch_usage (fetches 0) now, fetchCalls := 1,
        tokenReads := 1, sleeps := 0 }).data = false) :
    poll_once health tokens fetches now =
      { returned := (authRetry tokens fetches now AUTH_MAX_RETRIES
          { data := fetch_usage (fetches 0) now, fetchCalls := 1,
            tokenReads := 1, sleeps := 0 }).data,
        published := [(authRetry tokens fetches now AUTH_MAX_RETRIES
          { data := fetch_usage (fetches 0) now, fetchCalls := 1,
            tokenReads := 1, sleeps := 0 }).data],
        fetchCalls := (authRetry tokens fetches now AUTH_MAX_RETRIES
          { data := fetch_usage (fetches 0) now, fetchCalls := 1,
            tokenReads := 1, sleeps := 0 }).fetchCalls,
        tokenReads := (authRetry tokens fetches now AUTH_MAX_RETRIES
          { data := fetch_usage (fetches 0) now, fetchCalls := 1,
            tokenReads := 1, sleeps := 0 }).tokenReads,
        retrySleeps := (authRetry tokens fetches now AUTH_MAX_RETRIES
          { data := fetch_usage (fetches 0) now, fetchCalls := 1,
            tokenReads := 1, sleeps := 0 }).sleeps } := by
  simp only [poll_once, if_neg hm, ht0, h401, hfin, if_true]
  rfl

/-- Every snapshot poll_once publishes is the missing-token error, the
distinguished reconnect error, or the result of one of the oracle
fetches. -/
lemma poll_once_published_cases (health : String) (tokens : ℕ → Option String)
    (fetches : ℕ → FetchOutcome) (now : String) (d : UsageData)
    (hd : d ∈ (poll_once health tokens fetches now).published) :
    d = noTokenError ∨ d = reconnectError ∨
    ∃ i, d = fetch_usage (fetches i) now := by
  by_cases hm : health = "missing"
  · simp only [poll_once, if_pos hm, List.mem_singleton] at hd
    exact Or.inl hd
  · cases ht0 : tokens 0 with
    | none =>
        simp only [poll_once, if_neg hm, ht0, List.mem_singleton] at hd
        exact Or.inl hd
    | some t0 =>
        cases h401 : is401 (fetch_usage (fetches 0) now) with
        | true =>
            cases hfin : is401 (authRetry tokens fetches now AUTH_MAX_RETRIES
                { data := fetch_usage (fetches 0) now, fetchCalls := 1,
                  tokenReads := 1, sleeps := 0 }).data with
            | true =>
                rw [poll_once_401_exhausted health tokens fetches now t0 hm ht0 h401 hfin] at hd
                simp only [List.mem_singleton] at hd
                exact Or.inr (Or.inl hd)
            | false =>
                rw [poll_once_401_recovered health tokens fetches now t0 hm ht0 h401 hfin] at hd
                simp only [List.mem_singleton] at hd
                have h2 := authRetry_data_cases tokens fetches now AUTH_MAX_RETRIES
                  ⟨fetch_usage (fetches 0) now, 1, 1, 0⟩
                rcases h2 with h | ⟨i, h⟩
                · exact Or.inr (Or.inr ⟨0, by rw [hd]; exact h⟩)
                · exact Or.inr (Or.inr ⟨i, by rw [hd]; exact h⟩)
        | false =>
            rw [poll_once_direct_path health tokens fetches now t0 hm ht0 h401] at hd
            simp only [List.mem_singleton] at hd
            exact Or.inr (Or.inr ⟨0, hd⟩)

/-- The callback loop of SharedState.update invokes every registered
callback, in registration order, on the new snapshot. -/
lemma notifyAll_eq_map (cbs : List Subscriber) (d : UsageData) :
    notifyAll cbs d = cbs.map (fun cb => cb d) := by
  induction cbs with
  | nil => rfl
  | cons c t ih => simp [notifyAll, ih]

/-- Claim C2: for every consecutive-error count c and base interval b > 0,
the sleep computed at the end of a cycle is b when c is at most 3 and
min(b * 2^(c-3), 300) when c exceeds 3; for b = 30 and c = 4, 5, 6, 7 the
sleeps are 60, 120, 240, 300 seconds. -/
theorem backoff_sleep_formula (b : ℤ) (c : ℕ) (_hb : 0 < b) :
    (c ≤ 3 → sleepTime b c = b) ∧
    (3 < c → sleepTime b c = min (b * 2 ^ (c - 3)) 300) ∧
    sleepTime 30 4 = 60 ∧ sleepTime 30 5 = 120 ∧
    sleepTime 30 6 = 240 ∧ sleepTime 30 7 = 300 := by
  refine ⟨?_, ?_, by decide, by decide, by decide, by decide⟩
  · intro h
    simp [sleepTime, Nat.not_lt.mpr h]
  · intro h
    simp [sleepTime, h]

/-- Witness for C2 at b = 30, c = 4. -/
theorem backoff_sleep_formula_witness :
    0 < (30 : ℤ) ∧ sleepTime 30 4 = 60 :=
  ⟨by decide, (backoff_sleep_formula 30 4 (by decide)).2.2.1⟩

/-- Claim C3: when the token health check reports missing, poll_once
publishes and returns the no-OAuth-token error snapshot, performs zero
network fetches, zero token reads and zero retry delays — the condition
is not treated as a retryable network failure within the cycle. -/
theorem missing_token_skips_network (tokens : ℕ → Option String)
    (fetches : ℕ → FetchOutcome) (now : String) :
    poll_once "missing" tokens fetches now =
      { returned := noTokenError, published := [noTokenError],
        fetchCalls := 0, tokenReads := 0, retrySleeps := 0 } ∧
    noTokenError.error = some ("No OAuth token — is Claude Code installed?") :=
  ⟨rfl, rfl⟩

/-- Counterexample to C5: a server value of 150 flows through the parser
unclamped, so the resulting snapshot has no error yet a five_hour
utilization outside [0, 100]. -/
theorem utilization_exceeds_range_on_overlarge_server_value :
    (parse_response overResp ("t")).error = none ∧
    (parse_response overResp ("t")).five_hour.utilization = 150 ∧
    ¬(parse_response overResp ("t")).five_hour.utilization ≤ 100 := by
  refine ⟨rfl, rfl, ?_⟩
  show ¬(150 : ℚ) ≤ 100
  norm_num

/-- Amended C5: every parsed snapshot has no error, and each bucket
utilization equals the server-supplied value (0 when absent); the
utilizations lie in [0, 100] whenever the server-supplied values do. -/
theorem parse_success_and_utilization_passthrough (raw : ResponseJson) (now : String)
    (h5l : 0 ≤ bucketUtil raw.five_hour) (h5u : bucketUtil raw.five_hour ≤ 100)
    (h7l : 0 ≤ bucketUtil raw.seven_day) (h7u : bucketUtil raw.seven_day ≤ 100)
    (hsl : 0 ≤ bucketUtil raw.seven_day_sonnet)
    (hsu : bucketUtil raw.seven_day_sonnet ≤ 100) :
    (parse_response raw now).error = none ∧
    (parse_response raw now).five_hour.utilization = bucketUtil raw.five_hour ∧
    (parse_response raw now).seven_day.utilization = bucketUtil raw.seven_day ∧
    (parse_response raw now).seven_day_sonnet.utilization = bucketUtil raw.seven_day_sonnet ∧
    (0 ≤ (parse_response raw now).five_hour.utilization ∧
      (parse_response raw now).five_hour.utilization ≤ 100) ∧
    (0 ≤ (parse_response raw now).seven_day.utilization ∧
      (parse_response raw now).seven_day.utilization ≤ 100) ∧
    (0 ≤ (parse_response raw now).seven_day_sonnet.utilization ∧
      (parse_response raw now).seven_day_sonnet.utilization ≤ 100) :=
  ⟨rfl, rfl, rfl, rfl, ⟨h5l, h5u⟩, ⟨h7l, h7u⟩, ⟨hsl, hsu⟩⟩

/-- Witness for amended C5 on the empty response body. -/
theorem parse_success_and_utilization_passthrough_witness :
    (parse_response emptyResp ("t")).error = none ∧
    0 ≤ (parse_response emptyResp ("t")).five_hour.utilization := by
  have h := parse_success_and_utilization_passthrough emptyResp "t"
    (by norm_num [bucketUtil, emptyResp]) (by norm_num [bucketUtil, emptyResp])
    (by norm_num [bucketUtil, emptyResp]) (by norm_num [bucketUtil, emptyResp])
    (by norm_num [bucketUtil, emptyResp]) (by norm_num [bucketUtil, emptyResp])
  exact ⟨h.1, h.2.2.2.2.1.1⟩

/-- Counterexample to C6: a monthly limit of 1139 minor units (cents) is
stored as 11.39, i.e. already divided into major units at the parse
boundary, not kept as an integer minor-unit value. -/
theorem monetary_stored_major_units :
    ¬(parse_response centsResp ("t")).extra_usage.monthly_limit = 1139 ∧
    (parse_response centsResp ("t")).extra_usage.monthly_limit = 1139 / 100 ∧
    (parse_response centsResp ("t")).extra_usage.used_credits = 250 / 100 := by
  refine ⟨?_, rfl, rfl⟩
  show ¬(1139 / 100 : ℚ) = 1139
  norm_num

/-- Amended C6: the monetary fields arrive in minor units (cents) and are
divided by 100 inside the usage-client parser, so the snapshot stores
major-unit values whose product with 100 recovers the server cents. -/
theorem monetary_minor_converted_at_parse_boundary (raw : ResponseJson) (now : String)
    (cents credits : ℚ)
    (hl : (raw.extra_usage.getD {}).monthly_limit = some cents)
    (hc : (raw.extra_usage.getD {}).used_credits = some credits) :
    (parse_response raw now).extra_usage.monthly_limit = cents / 100 ∧
    (parse_response raw now).extra_usage.used_credits = credits / 100 ∧
    (parse_response raw now).extra_usage.monthly_limit * 100 = cents ∧
    (parse_response raw now).extra_usage.used_credits * 100 = credits := by
  have h1 : (parse_response raw now).extra_usage.monthly_limit = cents / 100 := by
    simp [parse_response, hl]
  have h2 : (parse_response raw now).extra_usage.used_credits = credits / 100 := by
    simp [parse_response, hc]
  refine ⟨h1, h2, ?_, ?_⟩
  · rw [h1]; field_simp
  · rw [h2]; field_simp

/-- Witness for amended C6 on a response carrying 1139 cents. -/
theorem monetary_minor_converted_at_parse_boundary_witness :
    (parse_response centsResp ("t")).extra_usage.monthly_limit * 100 = 1139 :=
  (monetary_minor_converted_at_parse_boundary centsResp "t" 1139 250 rfl rfl).2.2.1

/-- Counterexample to C7: after update_interval sets 5, the next cycle
re-reads the settings value 30 and sleeps 30, not 5 — the argument of
update_interval is not what the next cycle uses as base sleep. -/
theorem update_interval_not_used_for_sleep :
    (runCycle (update_interval { interval := 30, consecutiveErrors := 0 } 5)
      false (some 30)).2 = 30 ∧
    ¬(runCycle (update_interval { interval := 30, consecutiveErrors := 0 } 5)
      false (some 30)).2 = 5 := by
  exact ⟨rfl, by decide⟩

/-- Amended C7: each cycle re-reads its base interval from the settings
store (poll_interval, default 30), so calling update_interval has no
effect at all on any later cycle's sleep — a fortiori it cannot alter the
sleep already in progress, whose duration was computed by the previous
cycle; interval changes take effect only through the settings value at
the next cycle boundary. -/
theorem interval_reread_from_settings (st : MonitorState) (s : ℤ) (e : Bool)
    (cfg : Option ℤ) :
    runCycle (update_interval st s) e cfg = runCycle st e cfg ∧
    (runCycle st e cfg).2 = sleepTime (cfg.getD POLL_INTERVAL_SECONDS)
      (if e then st.consecutiveErrors + 1 else 0) ∧
    (runCycle st e cfg).1.interval = cfg.getD POLL_INTERVAL_SECONDS ∧
    (update_interval st s).consecutiveErrors = st.consecutiveErrors :=
  ⟨rfl, rfl, rfl, rfl⟩

/-- Claim C9: SharedState.update stores the snapshot and invokes every
registered callback on it, each inside its own exception guard, so a
raising subscriber neither prevents later subscribers from running nor
corrupts the held state, and the exception is recorded, not propagated;
get then returns exactly the updated snapshot.  The concrete conjuncts
exercise a raising subscriber followed by a succeeding one. -/
theorem subscriber_failure_isolated (st : SharedState) (d : UsageData) :
    (SharedState.update st d).1.data = d ∧
    SharedState.get (SharedState.update st d).1 = d ∧
    (SharedState.update st d).2 = st.callbacks.map (fun cb => cb d) ∧
    (SharedState.update { data := {}, callbacks := [failingCb, okCb] } d).2 =
      [Except.error ("boom"), Except.ok ()] ∧
    SharedState.get (SharedState.update
      { data := {}, callbacks := [failingCb, okCb] } d).1 = d :=
  ⟨rfl, rfl, notifyAll_eq_map st.callbacks d, rfl, rfl⟩

/-- Counterexample to C8: a present, parseable expiry timestamp of 0 (a
falsy JSON number) with current time 1 ms is past expiry, yet the
classifier reports ok with the no-expiry-info message, because the code
tests the field with Python truthiness before parsing it. -/
theorem zero_expiry_not_classified_expired :
    (0 : ℤ) < 1 ∧
    (check_token_health (CredFile.parsed (some ("tok"))
      (ExpiryField.present false (some 0))) 1) =
      ("ok", "Token present (no expiry info)") ∧
    ¬(check_token_health (CredFile.parsed (some ("tok"))
      (ExpiryField.present false (some 0))) 1).1 = "expired" := by
  refine ⟨by decide, ?_, by decide⟩
  rfl

/-- Amended C8: for every credential state with a truthy, parseable expiry
timestamp e (Python truthiness excludes the value 0, which the code
treats like an absent expiry) and current time t in milliseconds, the
classifier returns expired when t is past e, expiring when t is within
the 5-minute lead buffer before e, and ok otherwise; an absent expiry
field degrades to ok with a qualified message. -/
theorem token_health_classification (tok : String) (e now_ms : ℤ)
    (htok : tok.isEmpty = false) :
    (now_ms > e →
      check_token_health (CredFile.parsed (some tok)
        (ExpiryField.present true (some e))) now_ms =
        ("expired", "Token expired — open Claude Code to refresh")) ∧
    (now_ms ≤ e → e - EXPIRY_BUFFER_MS < now_ms →
      (check_token_health (CredFile.parsed (some tok)
        (ExpiryField.present true (some e))) now_ms).1 = "expiring") ∧
    (now_ms ≤ e - EXPIRY_BUFFER_MS →
      (check_token_health (CredFile.parsed (some tok)
        (ExpiryField.present true (some e))) now_ms).1 = "ok") ∧
    check_token_health (CredFile.parsed (some tok) ExpiryField.absent) now_ms =
      ("ok", "Token present (no expiry info)") := by
  have htr : truthyStr (some tok) = true := by simp [truthyStr, htok]
  refine ⟨?_, ?_, ?_, ?_⟩
  · intro h
    simp [check_token_health, htr, h]
  · intro h1 h2
    simp [check_token_health, htr, not_lt.mpr h1, h2]
  · intro h
    have hb : EXPIRY_BUFFER_MS = 300000 := by norm_num [EXPIRY_BUFFER_MS]
    have h1 : ¬now_ms > e := by omega
    have h2 : ¬now_ms > e - EXPIRY_BUFFER_MS := by omega
    simp [check_token_health, htr, h1, h2]
  · simp [check_token_health, htr]

/-- Witness for amended C8: expiry 1000 ms, current time 2000 ms. -/
theorem token_health_classification_witness :
    check_token_health (CredFile.parsed (some ("tok"))
      (ExpiryField.present true (some 1000))) 2000 =
      ("expired", "Token expired — open Claude Code to refresh") :=
  (token_health_classification "tok" 1000 2000 (by decide)).1 (by decide)

/-- Claim C4: every snapshot produced by fetch_usage or published by
poll_once is either an error marker with all payload fields at their
defaults, or an error-free snapshot that is exactly the parser output on
a successfully decoded body. -/
theorem snapshot_error_data_exclusive :
    (∀ (o : FetchOutcome) (now : String),
      ((fetch_usage o now).error.isSome = true → defaultPayload (fetch_usage o now)) ∧
      ((fetch_usage o now).error = none →
        ∃ raw, o = FetchOutcome.success raw ∧
          fetch_usage o now = parse_response raw now)) ∧
    (∀ (health : String) (tokens : ℕ → Option String) (fetches : ℕ → FetchOutcome)
      (now : String) (d : UsageData),
      d ∈ (poll_once health tokens fetches now).published →
      ((d.error.isSome = true → defaultPayload d) ∧
       (d.error = none → ∃ i raw, fetches i = FetchOutcome.success raw ∧
          d = parse_response raw now))) := by
  constructor
  · intro o now
    exact ⟨fetch_usage_error_payload o now, fetch_usage_success_form o now⟩
  · intro health tokens fetches now d hd
    rcases poll_once_published_cases health tokens fetches now d hd with h | h | ⟨i, h⟩
    · subst h
      refine ⟨fun _ => ⟨rfl, rfl, rfl, rfl⟩, fun hc => ?_⟩
      simp [noTokenError] at hc
    · subst h
      refine ⟨fun _ => ⟨rfl, rfl, rfl, rfl⟩, fun hc => ?_⟩
      simp [reconnectError] at hc
    · subst h
      refine ⟨fetch_usage_error_payload (fetches i) now, fun hc => ?_⟩
      obtain ⟨raw, ho, heq⟩ := fetch_usage_success_form (fetches i) now hc
      exact ⟨i, raw, ho, heq⟩

/-- Witness for C4 at an HTTP 500 outcome. -/
theorem snapshot_error_data_exclusive_witness :
    defaultPayload (fetch_usage (FetchOutcome.httpError 500) ("t")) :=
  (snapshot_error_data_exclusive.1 (FetchOutcome.httpError 500) "t").1 rfl

/-- Claim C10: last_updated is set exactly when a parse succeeded: every
fetch_usage result and every snapshot poll_once publishes has a non-none
last_updated if and only if its error field is absent, and the
missing-token and reconnect error snapshots both carry last_updated
none. -/
theorem last_updated_iff_no_error :
    (∀ (o : FetchOutcome) (now : String),
      ((fetch_usage o now).last_updated.isSome = true ↔
        (fetch_usage o now).error = none)) ∧
    noTokenError.last_updated = none ∧
    reconnectError.last_updated = none ∧
    (∀ (health : String) (tokens : ℕ → Option String) (fetches : ℕ → FetchOutcome)
      (now : String) (d : UsageData),
      d ∈ (poll_once health tokens fetches now).published →
      (d.last_updated.isSome = true ↔ d.error = none)) := by
  refine ⟨fetch_usage_last_updated, rfl, rfl, ?_⟩
  intro health tokens fetches now d hd
  rcases poll_once_published_cases health tokens fetches now d hd with h | h | ⟨i, h⟩
  · subst h; simp [noTokenError]
  · subst h; simp [reconnectError]
  · subst h; exact fetch_usage_last_updated (fetches i) now

/-- Witness for C10 on a successful poll publishing a parsed snapshot. -/
theorem last_updated_iff_no_error_witness :
    (parse_response emptyResp ("t")).last_updated.isSome = true ↔
      (parse_response emptyResp ("t")).error = none :=
  last_updated_iff_no_error.2.2.2 "ok" wTokens
    (fun _ => FetchOutcome.success emptyResp) "t" (parse_response emptyResp ("t"))
    (List.mem_singleton.mpr rfl)

/-- Claim C1: when the first fetch of a cycle is a 401, poll_once retries
at most AUTH_MAX_RETRIES = 2 more times, re-reading the token before each
retry; a 401, 401, success outcome sequence ends in the parsed success
snapshot published with no error after 3 fetches and 3 token reads, while
three 401s end in the distinguished reconnect-prompting error snapshot,
whose message no fetch_usage failure (generic network, SSL or HTTP
status) can produce. -/
theorem unauthorized_retry_behavior
    (tokens : ℕ → Option String) (fetches fetchesU : ℕ → FetchOutcome)
    (raw : ResponseJson) (now : String)
    (htok : ∀ i, (tokens i).isSome = true)
    (h0 : fetches 0 = FetchOutcome.httpError 401)
    (h1 : fetches 1 = FetchOutcome.httpError 401)
    (h2 : fetches 2 = FetchOutcome.success raw)
    (hU : ∀ i, fetchesU i = FetchOutcome.httpError 401) :
    poll_once "ok" tokens fetches now =
      { returned := parse_response raw now, published := [parse_response raw now],
        fetchCalls := 3, tokenReads := 3, retrySleeps := 2 } ∧
    (parse_response raw now).error = none ∧
    poll_once "ok" tokens fetchesU now =
      { returned := reconnectError, published := [reconnectError],
        fetchCalls := 3, tokenReads := 3, retrySleeps := 2 } ∧
    reconnectError.error =
      some ("Token expired — open Claude Code to refresh, then click Reconnect") ∧
    (∀ (h : String) (ts : ℕ → Option String) (fs : ℕ → FetchOutcome) (n : String),
      (poll_once h ts fs n).fetchCalls ≤ 1 + AUTH_MAX_RETRIES ∧
      (poll_once h ts fs n).retrySleeps ≤ AUTH_MAX_RETRIES) ∧
    (∀ (o : FetchOutcome) (n : String), (fetch_usage o n).error ≠ reconnectError.error) := by
  obtain ⟨t0, ht0⟩ := Option.isSome_iff_exists.mp (htok 0)
  obtain ⟨t1, ht1⟩ := Option.isSome_iff_exists.mp (htok 1)
  obtain ⟨t2, ht2⟩ := Option.isSome_iff_exists.mp (htok 2)
  have hm : ¬("ok" : String) = "missing" := by decide
  have e401 : ∀ (n : String), is401 (fetch_usage (FetchOutcome.httpError 401) n) = true :=
    fun n => rfl
  have f0 : is401 (fetch_usage (fetches 0) now) = true := by rw [h0]; exact e401 now
  have f1 : is401 (fetch_usage (fetches 1) now) = true := by rw [h1]; exact e401 now
  have fdone : is401 (fetch_usage (fetches 2) now) = false := by rw [h2]; rfl
  have s1 : authRetry tokens fetches now 2 ⟨fetch_usage (fetches 0) now, 1, 1, 0⟩ =
      authRetry tokens fetches now 1 ⟨fetch_usage (fetches 1) now, 2, 2, 1⟩ :=
    authRetry_step_401 tokens fetches now 1 ⟨fetch_usage (fetches 0) now, 1, 1, 0⟩ t1 ht1 f1
  have s2 : authRetry tokens fetches now 1 ⟨fetch_usage (fetches 1) now, 2, 2, 1⟩ =
      ⟨fetch_usage (fetches 2) now, 3, 3, 2⟩ :=
    authRetry_step_done tokens fetches now 0 ⟨fetch_usage (fetches 1) now, 2, 2, 1⟩ t2 ht2 fdone
  have r1 : authRetry tokens fetches now 2 ⟨fetch_usage (fetches 0) now, 1, 1, 0⟩ =
      ⟨fetch_usage (fetches 2) now, 3, 3, 2⟩ := s1.trans s2
  have hfin : is401 (authRetry tokens fetches now AUTH_MAX_RETRIES
      { data := fetch_usage (fetches 0) now, fetchCalls := 1,
        tokenReads := 1, sleeps := 0 }).data = false := by
    rw [show AUTH_MAX_RETRIES = 2 from rfl, r1]
    exact fdone
  have hpoll := poll_once_401_recovered "ok" tokens fetches now t0 hm ht0 f0 hfin
  have hA : poll_once "ok" tokens fetches now =
      { returned := parse_response raw now, published := [parse_response raw now],
        fetchCalls := 3, tokenReads := 3, retrySleeps := 2 } := by
    rw [hpoll, show AUTH_MAX_RETRIES = 2 from rfl, r1, h2]
    rfl
  have fU : ∀ i, is401 (fetch_usage (fetchesU i) now) = true := fun i => by
    rw [hU i]; exact e401 now
  have s1U : authRetry tokens fetchesU now 2 ⟨fetch_usage (fetchesU 0) now, 1, 1, 0⟩ =
      authRetry tokens fetchesU now 1 ⟨fetch_usage (fetchesU 1) now, 2, 2, 1⟩ :=
    authRetry_step_401 tokens fetchesU now 1
      ⟨fetch_usage (fetchesU 0) now, 1, 1, 0⟩ t1 ht1 (fU 1)
  have s2U : authRetry tokens fetchesU now 1 ⟨fetch_usage (fetchesU 1) now, 2, 2, 1⟩ =
      ⟨fetch_usage (fetchesU 2) now, 3, 3, 2⟩ :=
    authRetry_step_401 tokens fetchesU now 0
      ⟨fetch_usage (fetchesU 1) now, 2, 2, 1⟩ t2 ht2 (fU 2)
  have rU : authRetry tokens fetchesU now 2 ⟨fetch_usage (fetchesU 0) now, 1, 1, 0⟩ =
      ⟨fetch_usage (fetchesU 2) now, 3, 3, 2⟩ := s1U.trans s2U
  have hfinU : is401 (authRetry tokens fetchesU now AUTH_MAX_RETRIES
      { data := fetch_usage (fetchesU 0) now, fetchCalls := 1,
        tokenReads := 1, sleeps := 0 }).data = true := by
    rw [show AUTH_MAX_RETRIES = 2 from rfl, rU]
    exact fU 2
  have hpollU := poll_once_401_exhausted "ok" tokens fetchesU now t0 hm ht0 (fU 0) hfinU
  have hB : poll_once "ok" tokens fetchesU now =
      { returned := reconnectError, published := [reconnectError],
        fetchCalls := 3, tokenReads := 3, retrySleeps := 2 } := by
    rw [hpollU, show AUTH_MAX_RETRIES = 2 from rfl, rU]
  exact ⟨hA, rfl, hB, rfl, fun h ts fs n => poll_once_bounds h ts fs n,
    fun o n => fetch_usage_error_ne_reconnect o n⟩

/-- Witness for C1 on the concrete oracles 401, 401, success and
always-401. -/
theorem unauthorized_retry_behavior_witness :
    (poll_once "ok" wTokens wFetchUUS ("t")).returned = parse_response emptyResp ("t") ∧
    (poll_once "ok" wTokens wFetchUUU ("t")).returned = reconnectError ∧
    (poll_once "ok" wTokens wFetchUUS ("t")).fetchCalls = 3 := by
  have h := unauthorized_retry_behavior wTokens wFetchUUS wFetchUUU emptyResp "t"
    (fun i => rfl) rfl rfl rfl (fun i => rfl)
  exact ⟨by rw [h.1], by rw [h.2.2.1], by rw [h.1]⟩

end Pinch
